/-
Verification of the oatodify document-processing pipeline.

This file gives a shallow embedding of the parts of the repository that the
frozen claims are about:
  - services/ai_analyzer.py   (AIAnalyzer.analyze_document_content,
                               AIAnalyzer._rule_based_analysis,
                               AIAnalyzer.get_target_knowledge_base,
                               DocumentProcessor threshold configuration)
  - tasks/document_processor.py (process_document, can_process_file,
                               routing decision, celery retry loop)
  - services/version_manager.py (check_document_expiration_by_metadata,
                               process_document_expiration_check per-item step,
                               process_headquarters_version_deduplication
                               per-group step, compare_versions_by_ai guard,
                               extract_title_from_brackets,
                               check_revision_keywords)

External collaborators (S3 download, decryption, the document parser, the AI
completion endpoint, the Dify knowledge-base service, the database rows) are
modelled as oracle inputs: each call site that can succeed, fail structurally
or raise is driven by an explicit environment field, exactly mirroring the
try/except structure of the Python source.

Python dynamic typing at the AI boundary is modelled by a JSON value type
JVal; Python truthiness and dict.get behaviour are embedded explicitly.
-/
import Mathlib

set_option autoImplicit false

/-! ## JSON values and a model of json.loads

The analyzer and the version manager call json.loads on the raw text of the
AI reply and on the stored ai_analysis_result column.  JSON numbers are
modelled as integers only (the repository's schemas declare integer scores);
string escapes are not modelled (model accepts a strict subset of JSON, which
is sound for the claims: every acceptance by the model is an acceptance by
json.loads). -/

/-- JSON value as produced by json.loads: null, bool, number, string,
array, object (an object keeps its key/value pairs in textual order, like a
Python dict preserves insertion order).  A bare-integer number literal is a
Python int (jint); a literal with a fractional part or an exponent is a
Python float (jnum), carried by its exact decimal value mant / 10 ^ scale —
short decimal literals such as 85.5 are exactly representable, and the
binary rounding of extreme literals is not modelled. -/
inductive JVal where
  | jnull
  | jbool (b : Bool)
  | jint (n : Int)
  | jnum (mant : Int) (scale : Nat)
  | jstr (s : String)
  | jarr (xs : List JVal)
  | jobj (fields : List (String × JVal))

/-- Python truthiness of a JSON value: None, False, 0, empty string, empty
list and empty dict are falsy, everything else is truthy. -/
def truthy : JVal → Bool
  | .jnull => false
  | .jbool b => b
  | .jint n => n != 0
  | .jnum m _ => m != 0
  | .jstr s => !s.data.isEmpty
  | .jarr xs => !xs.isEmpty
  | .jobj fs => !fs.isEmpty

/-- Lookup of a key in a JSON object's field list: Python dict.get,
returning the first binding (dict keys are unique in practice). -/
def lookupJ : List (String × JVal) → String → Option JVal
  | [], _ => none
  | (k, v) :: rest, key => if k = key then some v else lookupJ rest key

/-- Skip JSON whitespace. -/
def skipWs : List Char → List Char
  | [] => []
  | c :: cs => if c = ' ' || c = '\n' || c = '\t' || c = '\r' then skipWs cs else c :: cs

/-- Parse the body of a JSON string literal after the opening quote;
escape sequences are not modelled (a backslash fails the parse, narrowing
the accepted language). -/
def parseStrBody : List Char → Option (String × List Char)
  | [] => none
  | c :: cs =>
    if c = '"' then some ("", cs)
    else if c = '\\' then none
    else match parseStrBody cs with
      | some (s, rest) => some (⟨c :: s.data⟩, rest)
      | none => none

/-- Parse a run of decimal digits (at least one). -/
def parseDigits : List Char → Option (Nat × List Char)
  | [] => none
  | c :: cs =>
    if c.isDigit then
      match parseDigits cs with
      | some (n, rest) => some ((c.toNat - 48) * 10 ^ (cs.length - rest.length) + n, rest)
      | none => some (c.toNat - 48, cs)
    else none

/-- Check that a list of characters starts with the given run. -/
def startsWithRun : List Char → List Char → Bool
  | [], _ => true
  | _ :: _, [] => false
  | p :: ps, c :: cs => p = c && startsWithRun ps cs

/-- Powers of ten over the integers, by structural recursion so that the
kernel evaluates them. -/
def pow10 : Nat → Int
  | 0 => 1
  | n + 1 => 10 * pow10 n

/-- Optional fractional part of a JSON number: a dot followed by at least
one digit (returned as value and digit count); absent when the next
character is not a dot; a dot without digits fails the parse (json.loads
raises). -/
def parseFracPart : List Char → Option ((Nat × Nat) × List Char)
  | '.' :: rest =>
    (match parseDigits rest with
     | some (d, r) => some ((d, rest.length - r.length), r)
     | none => none)
  | cs => some ((0, 0), cs)

/-- Optional exponent part of a JSON number: an e or E marker, an optional
sign and at least one digit; absent when the next character is not a
marker; a marker without digits fails the parse (json.loads raises). -/
def parseExpPart : List Char → Option (Option Int × List Char)
  | [] => some (none, [])
  | c :: rest =>
    if c = 'e' || c = 'E' then
      match rest with
      | '+' :: r2 =>
        (match parseDigits r2 with
         | some (e, r3) => some (some (e : Int), r3)
         | none => none)
      | '-' :: r2 =>
        (match parseDigits r2 with
         | some (e, r3) => some (some (-(e : Int)), r3)
         | none => none)
      | r2 =>
        (match parseDigits r2 with
         | some (e, r3) => some (some (e : Int), r3)
         | none => none)
    else some (none, c :: rest)

/-- The exact decimal value, as a mantissa/scale pair (value
mant / 10 ^ scale), of a JSON number with integer part n, fraction digits d
over k places and exponent e. -/
def decOfParts (n d : Nat) (k : Nat) (e : Int) : Int × Nat :=
  if 0 ≤ e then (((n : Int) * pow10 k + d) * pow10 e.toNat, k)
  else ((n : Int) * pow10 k + d, k + (-e).toNat)

/-- Negation of a parsed JSON number, for the leading-minus branch. -/
def negNum : JVal → JVal
  | .jint n => .jint (-n)
  | .jnum m s => .jnum (-m) s
  | v => v

/-- Parse a JSON number starting at a digit: integer part, optional
fraction, optional exponent (the json.loads number grammar, with the same
leading-zero widening as parseDigits).  A number with a fraction or an
exponent is a Python float, carried as jnum with its exact decimal value; a
bare integer part is a Python int. -/
def parseNum (cs : List Char) : Option (JVal × List Char) :=
  match parseDigits cs with
  | none => none
  | some (n, rest1) =>
    match parseFracPart rest1 with
    | none => none
    | some ((d, k), rest2) =>
      match parseExpPart rest2 with
      | none => none
      | some (eo, rest3) =>
        match k, eo with
        | 0, none => some (.jint (n : Int), rest3)
        | _, _ =>
          some (.jnum (decOfParts n d k (eo.getD 0)).1 (decOfParts n d k (eo.getD 0)).2, rest3)

mutual

/-- Recursive-descent JSON value parser with explicit fuel (the fuel is set
to the input length plus one by jsonLoads, which always suffices). -/
def parseVal : Nat → List Char → Option (JVal × List Char)
  | 0, _ => none
  | fuel + 1, cs =>
    match skipWs cs with
    | [] => none
    | c :: rest =>
      if c = '{' then parseObjFields fuel rest
      else if c = '[' then parseArrElems fuel rest
      else if c = '"' then
        match parseStrBody rest with
        | some (s, r) => some (.jstr s, r)
        | none => none
      else if c = 't' then
        if startsWithRun ['r', 'u', 'e'] rest then some (.jbool true, rest.drop 3) else none
      else if c = 'f' then
        if startsWithRun ['a', 'l', 's', 'e'] rest then some (.jbool false, rest.drop 4) else none
      else if c = 'n' then
        if startsWithRun ['u', 'l', 'l'] rest then some (.jnull, rest.drop 3) else none
      else if c = '-' then
        match parseNum rest with
        | some (v, r) => some (negNum v, r)
        | none => none
      else if c.isDigit then parseNum (c :: rest)
      else none

/-- Parse the members of a JSON object after the opening brace. -/
def parseObjFields : Nat → List Char → Option (JVal × List Char)
  | 0, _ => none
  | fuel + 1, cs =>
    match skipWs cs with
    | [] => none
    | c :: rest =>
      if c = '}' then some (.jobj [], rest)
      else match parseMember fuel (c :: rest) with
        | none => none
        | some (k, v, r) => parseObjRest fuel [(k, v)] r

/-- Parse one key/value member of a JSON object. -/
def parseMember : Nat → List Char → Option (String × JVal × List Char)
  | 0, _ => none
  | fuel + 1, cs =>
    match skipWs cs with
    | '"' :: rest =>
      match parseStrBody rest with
      | none => none
      | some (k, r) =>
        match skipWs r with
        | ':' :: r2 =>
          match parseVal fuel r2 with
          | some (v, r3) => some (k, v, r3)
          | none => none
        | _ => none
    | _ => none

/-- Parse the remaining members of a JSON object after the first one. -/
def parseObjRest : Nat → List (String × JVal) → List Char → Option (JVal × List Char)
  | 0, _, _ => none
  | fuel + 1, acc, cs =>
    match skipWs cs with
    | '}' :: rest => some (.jobj acc, rest)
    | ',' :: rest =>
      match parseMember fuel rest with
      | some (k, v, r) => parseObjRest fuel (acc ++ [(k, v)]) r
      | none => none
    | _ => none

/-- Parse the elements of a JSON array after the opening bracket. -/
def parseArrElems : Nat → List Char → Option (JVal × List Char)
  | 0, _ => none
  | fuel + 1, cs =>
    match skipWs cs with
    | [] => none
    | c :: rest =>
      if c = ']' then some (.jarr [], rest)
      else match parseVal fuel (c :: rest) with
        | none => none
        | some (v, r) => parseArrRest fuel [v] r

/-- Parse the remaining elements of a JSON array after the first one. -/
def parseArrRest : Nat → List JVal → List Char → Option (JVal × List Char)
  | 0, _, _ => none
  | fuel + 1, acc, cs =>
    match skipWs cs with
    | ']' :: rest => some (.jarr acc, rest)
    | ',' :: rest =>
      match parseVal fuel rest with
      | some (v, r) => parseArrRest fuel (acc ++ [v]) r
      | none => none
    | _ => none

end

/-- Model of json.loads: parse one JSON value and require only whitespace to
remain; returns none where json.loads raises. -/
def jsonLoads (s : String) : Option JVal :=
  match parseVal (s.data.length + 1) s.data with
  | some (v, rest) => if (skipWs rest).isEmpty then some v else none
  | none => none

/-! ## String helpers mirroring Python primitives -/

/-- Python str.lower, character by character. -/
def strLower (s : String) : String := ⟨s.data.map Char.toLower⟩

/-- Occurrence of a run of characters inside another (Python substring
containment; the empty pattern is contained in everything). -/
def containsRun (p : List Char) : List Char → Bool
  | [] => p.isEmpty
  | c :: cs => startsWithRun p (c :: cs) || containsRun p cs

/-- Python `pat in s` substring test. -/
def strContains (s pat : String) : Bool := containsRun pat.data s.data

/-- Python str.strip: drop leading and trailing whitespace. -/
def strTrim (s : String) : String :=
  ⟨((s.data.dropWhile Char.isWhitespace).reverse.dropWhile Char.isWhitespace).reverse⟩

/-- Split a character list at every occurrence of a separator character
(Python str.split with a one-character separator: n separators yield n+1
parts, empty parts included). -/
def splitOnChar (sep : Char) : List Char → List (List Char)
  | [] => [[]]
  | c :: rest =>
    if c = sep then [] :: splitOnChar sep rest
    else
      match splitOnChar sep rest with
      | [] => [[c]]
      | g :: gs => (c :: g) :: gs

/-- Python str.split with a one-character separator, over strings. -/
def strSplitOnChar (sep : Char) (s : String) : List String :=
  (splitOnChar sep s.data).map (fun l => ⟨l⟩)

/-- Python `s or dflt`: an empty string is falsy and replaced by the
default. -/
def pyOrDefault (s dflt : String) : String := if s.data.isEmpty then dflt else s

/-- The raw AI reply text handed to json.loads:
`response.choices[0].message.content or "\x7b\x7d"` — a missing or empty
reply becomes the empty JSON object text. -/
def pyReply (replyText : Option String) : String :=
  pyOrDefault (replyText.getD "") "\x7b\x7d"

/-! ## Python numbers

The numeric values flowing through the analyzed code are Python ints (from
integer JSON literals, booleans and the integer database columns) and
Python floats (from JSON literals with a fractional part or an exponent).
A float is carried by its exact decimal value mant / 10 ^ scale; the mixed
int/float comparisons the code performs (max, min, <, >=) are value
comparisons, modelled exactly by cross-multiplied integer comparison. -/

/-- A Python number: an int, or a float of exact value mant / 10 ^ scale. -/
inductive PyNum where
  | int (n : Int)
  | dec (mant : Int) (scale : Nat)
  deriving DecidableEq, Repr

/-- Mantissa view: the value of p is p.mantOf / 10 ^ p.scaleOf. -/
def PyNum.mantOf : PyNum → Int
  | .int n => n
  | .dec m _ => m

/-- Scale view: the value of p is p.mantOf / 10 ^ p.scaleOf. -/
def PyNum.scaleOf : PyNum → Nat
  | .int _ => 0
  | .dec _ s => s

instance : LE PyNum :=
  ⟨fun a b => a.mantOf * pow10 b.scaleOf ≤ b.mantOf * pow10 a.scaleOf⟩

instance : LT PyNum :=
  ⟨fun a b => a.mantOf * pow10 b.scaleOf < b.mantOf * pow10 a.scaleOf⟩

instance (a b : PyNum) : Decidable (a ≤ b) :=
  inferInstanceAs (Decidable (a.mantOf * pow10 b.scaleOf ≤ b.mantOf * pow10 a.scaleOf))

instance (a b : PyNum) : Decidable (a < b) :=
  inferInstanceAs (Decidable (a.mantOf * pow10 b.scaleOf < b.mantOf * pow10 a.scaleOf))

/-- Python min(a, b): the second argument replaces the first exactly when
it compares strictly smaller. -/
def pyMin (a b : PyNum) : PyNum := if b < a then b else a

/-- Python max(a, b): the second argument replaces the first exactly when
it compares strictly greater. -/
def pyMax (a b : PyNum) : PyNum := if a < b then b else a

/-- Whether a Python number's exact value is an integer (a float such as
85.5 is not; a float such as 1e3 is). -/
def PyNum.intValued : PyNum → Bool
  | .int _ => true
  | .dec m s => m % pow10 s == 0

/-! ## Data model: ai_analyzer.py -/

/-- Knowledge base row (models.KnowledgeBase): only the fields the analyzed
code reads. The status column is compared by the source against the literal
string "active". -/
structure KB where
  name : String
  status : String
  deriving Repr, DecidableEq

/-- Active DocumentCategoryMapping row for the document's business category
(the first row returned by the filtered query in
AIAnalyzer.get_document_processor / get_target_knowledge_base). -/
structure Mapping where
  min_confidence_score : Int
  auto_approve_threshold : Int
  knowledge_base : KB
  deriving Repr, DecidableEq

/-- Environment of one analyze_document_content call: the OpenAI client
state, the database rows the two lookups see, and the outcome of the chat
completion call. replyText = none models a None message content (the source
substitutes the empty-object text); aiRaises models an exception from the
completion call. -/
structure AnalyzerEnv where
  clientInit : Bool
  mapping : Option Mapping
  kbs : List KB
  aiRaises : Bool
  replyText : Option String

/-- The file_info dict built in process_document (lines 240-247): the
analyzer only branches on business_category; the other entries (file id,
filename, type, size) are threaded into prompts only. -/
structure FileInfoDict where
  business_category : Option String

/-- Parse metadata dict: the analyzer's rule-based fallback branches only on
file_type. -/
structure ParseMetadata where
  file_type : String

/-- The analysis-result dict as consumed by process_document's routing and
persisted to the record. suitable_for_kb and reasons are raw JSON values
(the AI path stores reply fields verbatim); confidence_score is a Python
number — the rule-based and failed paths store ints, while the AI path
clamps the reply's number, so a float reply value stays a float.
processor_config is present exactly on the successful
AI path; its integer entries are modelled as an association list so that the
dict.get key lookups of the router stay observable (the source dict also
carries a "category" string entry that no integer lookup can hit, omitted
here). Fields summary, key_topics, completeness, model_version,
json_output_method and the category-specific passthrough fields are not
read by any analyzed code path and are projected away. -/
structure AnalysisResult where
  suitable_for_kb : JVal
  confidence_score : PyNum
  reasons : JVal
  quality_score : Option PyNum
  analysis_method : String
  processor_config : Option (List (String × Int))

/-- The 8 BusinessCategory enum values (models.py). -/
def businessCategoryValues : List String :=
  ["HEADQUARTERS_ISSUE", "RETAIL_ANNOUNCEMENT", "PUBLICATION_RELEASE", "BRANCH_ISSUE",
   "BRANCH_RECEIVE", "PUBLIC_STANDARD", "HEADQUARTERS_RECEIVE", "CORPORATE_ANNOUNCEMENT"]

/-- Python dict.get with an integer default over the modelled integer
entries of a dict. -/
def dictGet : List (String × Int) → String → Int → Int
  | [], _, dflt => dflt
  | (k, v) :: rest, key, dflt => if k = key then v else dictGet rest key dflt

/-- Clamp of a score: `max(0, min(100, x))` — Python min/max over mixed
int/float arguments compare by value, so a float inside the bounds passes
through unchanged (and stays a float). -/
def clampScore (x : PyNum) : PyNum := pyMax (.int 0) (pyMin (.int 100) x)

/-- Blacklist filename keywords of _rule_based_analysis. -/
def blacklistKeywords : List String :=
  ["test", "temp", "backup", "log", "cache", "debug", "测试", "临时", "备份", "日志", "缓存", "调试"]

/-- Sensitive content keywords of _rule_based_analysis. -/
def sensitiveKeywords : List String :=
  ["密码", "秘密", "机密", "私人", "个人信息", "password", "secret", "confidential", "private"]

/-- One blacklist-keyword step of the rule-based analysis: on a hit the
document becomes unsuitable, a reason is appended and the confidence drops
by 20 with a floor of 10. The accumulator is (suitable, confidence,
reasons). -/
def blacklistStep (filenameLower : String) (acc : Bool × Int × List String) (kw : String) :
    Bool × Int × List String :=
  if strContains filenameLower kw then
    (false, max (acc.2.1 - 20) 10, acc.2.2 ++ ["文件名包含黑名单关键词: " ++ kw])
  else acc

/-- Content-length step of the rule-based analysis (ai_analyzer.py lines
490-498): a too-short content marks the document unsuitable and drops the
confidence by 30 (floor 10); a very long content keeps suitability but
drops the confidence by 10 (floor 30). The accumulator is (suitable,
confidence, reasons). -/
def lengthStep (contentLength : Int) (s : Bool × Int × List String) : Bool × Int × List String :=
  if contentLength < 100 then
    (false, max (s.2.1 - 30) 10, s.2.2 ++ ["内容过短，缺乏实质性信息"])
  else if contentLength > 50000 then
    (s.1, max (s.2.1 - 10) 30, s.2.2 ++ ["内容较长，需要人工审核"])
  else s

/-- File-type step of the rule-based analysis (ai_analyzer.py lines
500-507): standard document formats raise the base quality score of 50 by
10, plain text lowers it by 5. -/
def fileTypeQuality (fileType : String) (reasons : List String) : Int × List String :=
  if fileType = "pdf" || fileType = "docx" || fileType = "doc" then
    (50 + 10, reasons ++ ["标准文档格式"])
  else if fileType = "txt" then (50 - 5, reasons ++ ["纯文本格式，结构化程度较低"])
  else (50, reasons)

/-- State (suitable, confidence, reasons) after the blacklist scan of
_rule_based_analysis (ai_analyzer.py lines 467-488), starting from
(True, 60, empty). -/
def ruleState1 (filename : String) : Bool × Int × List String :=
  blacklistKeywords.foldl (blacklistStep (strLower filename)) (true, 60, [])

/-- State after the content-length step (ai_analyzer.py lines 490-498);
the length is that of the stripped content. -/
def ruleState2 (content filename : String) : Bool × Int × List String :=
  lengthStep ((strTrim content).length : Int) (ruleState1 filename)

/-- Number of lines of the content with a nonempty strip (ai_analyzer.py
lines 510-511). -/
def nonEmptyLineCount (content : String) : Nat :=
  ((strSplitOnChar '\n' content).filter (fun l => !(strTrim l).data.isEmpty)).length

/-- State (suitable, quality, reasons) after the file-type and
effective-line steps (ai_analyzer.py lines 500-516): the quality score
starts at 50 inside fileTypeQuality and drops by 20 when fewer than 5
effective lines remain, which also marks the document unsuitable. -/
def ruleState3 (content filename fileType : String) : Bool × Int × List String :=
  let q1 := fileTypeQuality fileType (ruleState2 content filename).2.2
  if nonEmptyLineCount content < 5 then (false, q1.1 - 20, q1.2 ++ ["有效行数过少"])
  else ((ruleState2 content filename).1, q1.1, q1.2)

/-- First sensitive keyword found in the lowercased content (ai_analyzer.py
lines 518-530; the source breaks out of the loop at the first hit). -/
def sensitiveHit (content : String) : Option String :=
  sensitiveKeywords.find? (fun kw => strContains (strLower content) kw)

/-- Final confidence of the rule-based analysis (ai_analyzer.py lines
524-530): a sensitive-keyword hit drops the confidence — last touched by
the length step — by 25 with a floor of 10. -/
def ruleConfidence (content filename : String) : Int :=
  match sensitiveHit content with
  | some _ => max ((ruleState2 content filename).2.1 - 25) 10
  | none => (ruleState2 content filename).2.1

/-- Final suitability flag of the rule-based analysis: a sensitive-keyword
hit forces unsuitable, otherwise the flag left by the line-count step. -/
def ruleSuitable (content filename fileType : String) : Bool :=
  match sensitiveHit content with
  | some _ => false
  | none => (ruleState3 content filename fileType).1

/-- Final reasons list of the rule-based analysis before the final
empty-check. -/
def ruleReasons (content filename fileType : String) : List String :=
  match sensitiveHit content with
  | some _ => (ruleState3 content filename fileType).2.2 ++ ["可能包含敏感信息"]
  | none => (ruleState3 content filename fileType).2.2

/-- AIAnalyzer._rule_based_analysis (ai_analyzer.py lines 462-568), the
deterministic fallback, assembled from the pipeline states above in the
order of the source: blacklist scan, content-length bounds, file-type
quality nudges, effective-line count, sensitive-keyword scan.  The
summary, key_topics and completeness outputs are projected away (see
AnalysisResult). -/
def rule_based_analysis (content filename : String) (_file_info : FileInfoDict)
    (metadata : ParseMetadata) : AnalysisResult :=
  let rs := ruleReasons content filename metadata.file_type
  let finalReasons := if rs.isEmpty then ["通过基本规则检查"] else rs
  { suitable_for_kb := .jbool (ruleSuitable content filename metadata.file_type)
    confidence_score := .int (ruleConfidence content filename)
    reasons := .jarr (finalReasons.map .jstr)
    quality_score := some (.int (ruleState3 content filename metadata.file_type).2.1)
    analysis_method := "rule_based"
    processor_config := none }

/-- AIAnalyzer.get_target_knowledge_base (ai_analyzer.py lines 322-340):
the mapping's knowledge base when its status is the string "active",
otherwise the first knowledge base whose status is "active", otherwise
none. -/
def get_target_knowledge_base (env : AnalyzerEnv) : Option KB :=
  match env.mapping with
  | some m =>
    if m.knowledge_base.status = "active" then some m.knowledge_base
    else env.kbs.find? (fun kb => kb.status = "active")
  | none => env.kbs.find? (fun kb => kb.status = "active")

/-- The processor's min_confidence threshold (DocumentProcessor, ai_analyzer.py
lines 16-21 and get_document_processor lines 298-318): the mapping row's
min_confidence_score, or the dict.get default 70 when no active mapping row
exists. -/
def mappingMinConfidence (env : AnalyzerEnv) : Int :=
  match env.mapping with
  | some m => m.min_confidence_score
  | none => 70

/-- The processor's auto_approve_threshold (DocumentProcessor, ai_analyzer.py
lines 16-22): the mapping row's auto_approve_threshold, or the dict.get
default 90 when no active mapping row exists. -/
def mappingAutoApprove (env : AnalyzerEnv) : Int :=
  match env.mapping with
  | some m => m.auto_approve_threshold
  | none => 90

/-- The processor_config dict stored into the AI analysis result
(ai_analyzer.py lines 431-435): integer entries under the keys
"min_confidence" and "auto_approve_threshold" (the key
"min_confidence_score" is NOT among them). -/
def pcDict (minC autoT : Int) : List (String × Int) :=
  [("min_confidence", minC), ("auto_approve_threshold", autoT)]

/-- Extraction of a numeric field from the reply object with a default:
a missing key yields the default, an int or float is taken as is, a boolean
is the Python int it is (True = 1, False = 0); any other JSON value makes
the subsequent max/min comparison raise a TypeError (modelled as none,
which analyze_document_content turns into the rule-based fallback). -/
def jGetNum (fs : List (String × JVal)) (key : String) (dflt : Int) : Option PyNum :=
  match lookupJ fs key with
  | none => some (.int dflt)
  | some (.jint i) => some (.int i)
  | some (.jnum m s) => some (.dec m s)
  | some (.jbool b) => some (.int (if b then 1 else 0))
  | some _ => none

/-- Construction of the standardized AI analysis result from the parsed
reply object (ai_analyzer.py lines 420-447): verbatim suitable_for_kb with
a False default, clamped confidence and quality scores, reasons with an
empty-list default, then the category quality override: a clamped
confidence below the processor's min_confidence forces suitable_for_kb to
False and appends a reason (which raises, hence none, when the reasons
value is not a list). none models an exception escaping to the outer
handler. -/
def buildAiResult (fs : List (String × JVal)) (minC autoT : Int) : Option AnalysisResult :=
  match jGetNum fs "confidence_score" 0, jGetNum fs "quality_score" 50 with
  | some c0, some q0 =>
    if clampScore c0 < PyNum.int minC then
      match (lookupJ fs "reasons").getD (.jarr []) with
      | .jarr xs =>
        some { suitable_for_kb := .jbool false
               confidence_score := clampScore c0
               reasons := .jarr (xs ++ [.jstr ("置信度低于阈值 " ++ toString minC)])
               quality_score := some (clampScore q0)
               analysis_method := "ai"
               processor_config := some (pcDict minC autoT) }
      | _ => none
    else
      some { suitable_for_kb := (lookupJ fs "suitable_for_kb").getD (.jbool false)
             confidence_score := clampScore c0
             reasons := (lookupJ fs "reasons").getD (.jarr [])
             quality_score := some (clampScore q0)
             analysis_method := "ai"
             processor_config := some (pcDict minC autoT) }
  | _, _ => none

/-- AIAnalyzer.analyze_document_content (ai_analyzer.py lines 342-460).
Control flow of the source: a missing or invalid business category degrades
to the rule-based analysis with no target; with a valid category the
processor thresholds come from the active mapping (defaults 70/90 from
DocumentProcessor when no mapping row exists) and the target knowledge base
is resolved; an uninitialized client degrades to the rule-based analysis
but keeps the resolved target; an exception from the completion call, a
reply that is not a JSON object, or a type error while standardizing the
reply all fall to the outer handler, which returns the rule-based analysis
with no target. -/
def analyze_document_content (content filename : String) (file_info : FileInfoDict)
    (metadata : ParseMetadata) (env : AnalyzerEnv) : AnalysisResult × Option KB :=
  match file_info.business_category with
  | none => (rule_based_analysis content filename file_info metadata, none)
  | some c =>
    if c.data.isEmpty then (rule_based_analysis content filename file_info metadata, none)
    else if !(businessCategoryValues.contains c) then
      (rule_based_analysis content filename file_info metadata, none)
    else if !env.clientInit then
      (rule_based_analysis content filename file_info metadata, get_target_knowledge_base env)
    else if env.aiRaises then (rule_based_analysis content filename file_info metadata, none)
    else
      match jsonLoads (pyReply env.replyText) with
      | some (.jobj fs) =>
        match buildAiResult fs (mappingMinConfidence env) (mappingAutoApprove env) with
        | some r => (r, get_target_knowledge_base env)
        | none => (rule_based_analysis content filename file_info metadata, none)
      | _ => (rule_based_analysis content filename file_info metadata, none)

/-! ## Data model: tasks/document_processor.py -/

/-- ProcessingStatus enum (models.py). -/
inductive ProcessingStatus where
  | PENDING
  | DOWNLOADING
  | DECRYPTING
  | PARSING
  | ANALYZING
  | AWAITING_APPROVAL
  | COMPLETED
  | FAILED
  | SKIPPED
  deriving DecidableEq, Repr

/-- Return value of one process_document invocation: a success dict, a
failure dict, or a propagated self.retry exception (celery re-delivers the
task in that case). -/
inductive ProcReturn where
  | ok
  | err
  | raisedRetry
  deriving DecidableEq, Repr

/-- One ProcessingLog row as written by log_processing_step: the step name,
the step status string, and whether a duration was recorded. -/
structure LogEntry where
  step : String
  status : String
  hasDuration : Bool
  deriving DecidableEq, Repr

/-- Observable side effects of one process_document invocation: the
processing_status values written through update_file_status in order, the
ProcessingLog rows appended in order, the total increment of the record's
error_count, the pipeline stages entered, and whether the publish call went
through the global default dify_service because no target knowledge base
was resolved. -/
structure Trace where
  statuses : List ProcessingStatus
  logs : List LogEntry
  errorDelta : Nat
  stagesRun : List String
  usedDefaultKbService : Bool
  deriving DecidableEq, Repr

/-- The empty side-effect trace. -/
def emptyTrace : Trace :=
  { statuses := [], logs := [], errorDelta := 0, stagesRun := [], usedDefaultKbService := false }

/-- Environment of one process_document invocation: the record's current
processing_status (none when no row exists), the outcome of each external
stage call, the analyzer outcome (none when analyze_document_content
raises; the source catches that locally and substitutes a zero-confidence
failed analysis), the publish outcome, and celery's current retry counter
self.request.retries. -/
structure ProcEnv where
  docStatus : Option ProcessingStatus
  downloadOk : Bool
  decryptOk : Bool
  parseRaises : Bool
  parseOk : Bool
  analysis : Option (AnalysisResult × Option KB)
  publishRaises : Bool
  publishOk : Bool
  retries : Nat

/-- The celery task's max_retries setting (document_processor.py line 98). -/
def MAX_RETRIES : Nat := 3

/-- The substitute analysis dict built when analyze_document_content raises
(document_processor.py lines 271-277): unsuitable, zero confidence, a
failure reason, method "failed", and no processor_config and no
quality_score entry (the reason text interpolates the exception message,
modelled by its fixed prefix). -/
def failedAnalysisResult : AnalysisResult :=
  { suitable_for_kb := .jbool false
    confidence_score := .int 0
    reasons := .jarr [.jstr "AI分析失败"]
    quality_score := none
    analysis_method := "failed"
    processor_config := none }

/-- process_document (document_processor.py lines 98-383).

Stage structure of the source, mirrored branch by branch:
eligibility guard (can_process_file: only a PENDING row may proceed; a
guard failure returns a failure dict with no writes), download, decrypt,
parse (an exception in these writes a failed step log with duration, sets
FAILED, bumps error_count and re-raises; the outer handler then bumps
error_count again, sets FAILED again, and either raises self.retry when
retries remain or returns a failure dict), structured parse failure
(returns a failure dict after one FAILED write), analysis (an analyzer
exception is downgraded locally), then the routing decision reading
auto_approve_threshold (default 80) and min_confidence_score (default 40)
from the analysis result's processor_config dict, publishing /
awaiting-approval / skipping accordingly.  A publish failure or exception
marks the record FAILED but the invocation still returns its success
dict. -/
def process_document (env : ProcEnv) : Trace × ProcReturn :=
  if env.docStatus = some ProcessingStatus.PENDING then
    if !env.downloadOk then
      ({ statuses := [.DOWNLOADING, .FAILED, .FAILED],
         logs := [⟨"download", "failed", true⟩],
         errorDelta := 2,
         stagesRun := ["download"],
         usedDefaultKbService := false },
       if env.retries < MAX_RETRIES then .raisedRetry else .err)
    else if !env.decryptOk then
      ({ statuses := [.DOWNLOADING, .DECRYPTING, .FAILED, .FAILED],
         logs := [⟨"download", "success", true⟩, ⟨"decrypt", "failed", true⟩],
         errorDelta := 2,
         stagesRun := ["download", "decrypt"],
         usedDefaultKbService := false },
       if env.retries < MAX_RETRIES then .raisedRetry else .err)
    else if env.parseRaises then
      ({ statuses := [.DOWNLOADING, .DECRYPTING, .PARSING, .FAILED, .FAILED],
         logs := [⟨"download", "success", true⟩, ⟨"decrypt", "success", true⟩,
                  ⟨"parse", "failed", true⟩],
         errorDelta := 2,
         stagesRun := ["download", "decrypt", "parse"],
         usedDefaultKbService := false },
       if env.retries < MAX_RETRIES then .raisedRetry else .err)
    else if !env.parseOk then
      ({ statuses := [.DOWNLOADING, .DECRYPTING, .PARSING, .FAILED],
         logs := [⟨"download", "success", true⟩, ⟨"decrypt", "success", true⟩,
                  ⟨"parse", "failed", true⟩],
         errorDelta := 1,
         stagesRun := ["download", "decrypt", "parse"],
         usedDefaultKbService := false },
       .err)
    else
      let analyzeLog : LogEntry := match env.analysis with
        | none => ⟨"analyze", "failed", true⟩
        | some _ => ⟨"analyze", "success", true⟩
      let ar := (env.analysis.map Prod.fst).getD failedAnalysisResult
      let target := (env.analysis.map Prod.snd).getD none
      let pc := ar.processor_config.getD []
      let autoT := dictGet pc "auto_approve_threshold" 80
      let minC := dictGet pc "min_confidence_score" 40
      let baseStatuses : List ProcessingStatus := [.DOWNLOADING, .DECRYPTING, .PARSING, .ANALYZING]
      let baseLogs : List LogEntry :=
        [⟨"download", "success", true⟩, ⟨"decrypt", "success", true⟩,
         ⟨"parse", "success", true⟩, analyzeLog]
      let baseStages : List String := ["download", "decrypt", "parse", "analyze"]
      if truthy ar.suitable_for_kb ∧ PyNum.int autoT ≤ ar.confidence_score then
        if env.publishRaises then
          ({ statuses := baseStatuses ++ [.FAILED],
             logs := baseLogs ++ [⟨"add_to_kb", "failed", true⟩],
             errorDelta := 1,
             stagesRun := baseStages ++ ["add_to_kb"],
             usedDefaultKbService := target.isNone },
           .ok)
        else if env.publishOk then
          ({ statuses := baseStatuses ++ [.COMPLETED],
             logs := baseLogs ++ [⟨"add_to_kb", "success", true⟩],
             errorDelta := 0,
             stagesRun := baseStages ++ ["add_to_kb"],
             usedDefaultKbService := target.isNone },
           .ok)
        else
          ({ statuses := baseStatuses ++ [.FAILED],
             logs := baseLogs ++ [⟨"add_to_kb", "failed", true⟩],
             errorDelta := 1,
             stagesRun := baseStages ++ ["add_to_kb"],
             usedDefaultKbService := target.isNone },
           .ok)
      else if truthy ar.suitable_for_kb ∧ PyNum.int minC ≤ ar.confidence_score then
        ({ statuses := baseStatuses ++ [.AWAITING_APPROVAL],
           logs := baseLogs ++ [⟨"review", "pending", false⟩],
           errorDelta := 0,
           stagesRun := baseStages,
           usedDefaultKbService := false },
         .ok)
      else
        ({ statuses := baseStatuses ++ [.SKIPPED],
           logs := baseLogs ++ [⟨"skip", "success", false⟩],
           errorDelta := 0,
           stagesRun := baseStages,
           usedDefaultKbService := false },
         .ok)
  else (emptyTrace, .err)

/-- One full pipeline invocation whose analysis stage actually runs the
embedded analyzer (the composition at document_processor.py lines
250-252). -/
def pipelineRun (docStatus : Option ProcessingStatus) (downloadOk decryptOk : Bool)
    (parseRaises parseOk : Bool) (publishRaises publishOk : Bool) (retries : Nat)
    (content filename : String) (fi : FileInfoDict) (md : ParseMetadata)
    (aenv : AnalyzerEnv) : Trace × ProcReturn :=
  process_document
    { docStatus := docStatus
      downloadOk := downloadOk
      decryptOk := decryptOk
      parseRaises := parseRaises
      parseOk := parseOk
      analysis := some (analyze_document_content content filename fi md aenv)
      publishRaises := publishRaises
      publishOk := publishOk
      retries := retries }

/-- The record's processing_status after a trace: the last status written,
or the previous one if nothing was written. -/
def lastWrittenStatus (t : Trace) (prev : Option ProcessingStatus) : Option ProcessingStatus :=
  match t.statuses.getLast? with
  | some st => some st
  | none => prev

/-- The celery retry loop around process_document: while an invocation ends
in raise self.retry, the task is re-delivered against the database state the
previous attempt left behind, with the retry counter incremented.  Returns
the traces of all attempts in order. -/
def retryRun : Nat → ProcEnv → List (Trace × ProcReturn)
  | 0, _ => []
  | fuel + 1, env =>
    let r := process_document env
    match r.2 with
    | .raisedRetry =>
      r :: retryRun fuel
        { env with docStatus := lastWrittenStatus r.1 env.docStatus, retries := env.retries + 1 }
    | _ => [r]

/-! ## Data model: services/version_manager.py -/

/-- Revision-marker keywords of VersionManager.check_revision_keywords. -/
def revisionKeywords : List String :=
  ["修订", "修改", "更新", "调整", "变更", "修正", "补充", "完善", "废止", "废除"]

/-- VersionManager.check_revision_keywords (version_manager.py lines
65-83): substring scan over the original filename (the source computes a
lowercased copy but tests the keywords against the original). -/
def check_revision_keywords (filename : String) : Bool :=
  revisionKeywords.any (fun kw => strContains filename kw)

/-- Scan for the closing bracket of the lazy regex group after an opening
title bracket: the first character is always part of the group (the group
needs at least one character), the group may not cross a newline (the regex
dot), and the group ends at the next closing bracket. -/
def scanToClose : List Char → Option String
  | [] => none
  | c :: cs => if c = '\n' then none else scanAfterFirst [c] cs
where
  scanAfterFirst : List Char → List Char → Option String
    | _, [] => none
    | acc, c :: cs =>
      if c = '》' then some ⟨acc.reverse⟩
      else if c = '\n' then none
      else scanAfterFirst (c :: acc) cs

/-- Inner search loop of extract_title_from_brackets: try a match at each
opening bracket from left to right. -/
def searchBrackets : List Char → Option String
  | [] => none
  | c :: cs =>
    if c = '《' then
      match scanToClose cs with
      | some t => some t
      | none => searchBrackets cs
    else searchBrackets cs

/-- VersionManager.extract_title_from_brackets (version_manager.py lines
49-63): the group of the leftmost lazy regex match of a bracketed title. -/
def extract_title_from_brackets (filename : String) : Option String :=
  searchBrackets filename.data

/-- Result dict of VersionManager.compare_versions_by_ai: the AI's version
verdict (reasoning and version_comparison strings omitted; no analyzed code
branches on them). -/
structure CompareResult where
  latest_document_id : Option String
  old_document_ids : List String
  deriving Repr, DecidableEq

/-- VersionManager.compare_versions_by_ai (version_manager.py lines
155-246): no client or fewer than two documents short-circuit to none;
otherwise the call's outcome is the environment's (none models an exception
or unparseable reply, caught by the function itself). -/
def compare_versions_by_ai (clientInit : Bool) (documentsWithPreviews : List (String × String))
    (aiOutcome : Option CompareResult) : Option CompareResult :=
  if !clientInit then none
  else if documentsWithPreviews.length < 2 then none
  else aiOutcome

/-- Environment of one candidate-group iteration of
process_headquarters_version_deduplication: the triggering document's
filename, the similar completed documents found for the extracted title
paired with their preview download outcome (none models a failed
download/decrypt/parse), the AI client state, the comparison outcome, and
which knowledge-base deletions would succeed. -/
structure DedupGroupEnv where
  filename : String
  similarDocs : List (String × Option String)
  clientInit : Bool
  aiOutcome : Option CompareResult
  deleteOk : String → Bool

/-- Observable effects of one candidate-group iteration of the dedup
sweep. -/
structure DedupStepResult where
  aiCompareCalled : Bool
  deletedIds : List String
  duplicatesFound : Bool
  errorsDelta : Nat

/-- One loop iteration of
VersionManager.process_headquarters_version_deduplication
(version_manager.py lines 325-395): skip without revision keyword, skip
without extractable title, skip with at most one similar document; with a
group, download previews, require at least two successful previews before
calling the AI comparison, and delete the old ids it returns (an id is
deleted when its row is found and the knowledge-base delete succeeds). -/
def dedupGroupStep (env : DedupGroupEnv) : DedupStepResult :=
  if !check_revision_keywords env.filename then
    { aiCompareCalled := false, deletedIds := [], duplicatesFound := false, errorsDelta := 0 }
  else
    match extract_title_from_brackets env.filename with
    | none =>
      { aiCompareCalled := false, deletedIds := [], duplicatesFound := false, errorsDelta := 0 }
    | some _ =>
      if env.similarDocs.length ≤ 1 then
        { aiCompareCalled := false, deletedIds := [], duplicatesFound := false, errorsDelta := 0 }
      else
        if (env.similarDocs.filterMap (fun p => p.2.map (fun preview => (p.1, preview)))).length
            < 2 then
          { aiCompareCalled := false, deletedIds := [], duplicatesFound := true, errorsDelta := 0 }
        else
          match compare_versions_by_ai env.clientInit
              (env.similarDocs.filterMap (fun p => p.2.map (fun preview => (p.1, preview))))
              env.aiOutcome with
          | none =>
            { aiCompareCalled := true, deletedIds := [], duplicatesFound := true, errorsDelta := 1 }
          | some cr =>
            { aiCompareCalled := true, deletedIds := cr.old_document_ids.filter env.deleteOk,
              duplicatesFound := true, errorsDelta := 0 }

/-- Permanence sentinel values of check_document_expiration_by_metadata
(version_manager.py line 428). -/
def sentinelValues : List String := ["永久", "无", "permanent", "none", "never", "长期"]

/-- The current datetime.now() as a date triple plus the seconds elapsed in
the day (strptime results carry a zero time-of-day, so a date equal to
today's counts as expired exactly when the current time is past
midnight). -/
structure PyDateTime where
  year : Int
  month : Int
  day : Int
  secondsOfDay : Nat

/-- Comparison expiration_date < now between a parsed midnight date and the
current datetime. -/
def dateTimeLt (y m d : Int) (now : PyDateTime) : Bool :=
  (y < now.year) ||
    (y = now.year &&
      ((m < now.month) ||
        (m = now.month && ((d < now.day) || (d = now.day && 0 < now.secondsOfDay)))))

/-- Nonempty all-digit character run. -/
def isDigits (cs : List Char) : Bool := !cs.isEmpty && cs.all Char.isDigit

/-- Numeric value of a digit run. -/
def digitsVal (cs : List Char) : Nat := cs.foldl (fun a c => a * 10 + (c.toNat - 48)) 0

/-- Gregorian leap year (as validated by the datetime constructor). -/
def isLeapYear (y : Int) : Bool := (y % 4 = 0 && y % 100 != 0) || y % 400 = 0

/-- Days in a month, as validated by the datetime constructor. -/
def daysInMonth (y m : Int) : Int :=
  if m = 1 || m = 3 || m = 5 || m = 7 || m = 8 || m = 10 || m = 12 then 31
  else if m = 4 || m = 6 || m = 9 || m = 11 then 30
  else if isLeapYear y then 29
  else 28

/-- Apply one strptime date pattern to the three separated fields: the year
directive requires exactly four digits, month and day one or two digits in
range, and the datetime constructor validates the year minimum and the day
against the month length (a violation raises ValueError, which the format
loop swallows). -/
def strptimeParts (ys ms ds : String) : Option (Int × Int × Int) :=
  if ys.data.length = 4 && ys.data.all Char.isDigit
      && isDigits ms.data && ms.data.length ≤ 2
      && isDigits ds.data && ds.data.length ≤ 2 then
    let y : Int := (digitsVal ys.data : Int)
    let m : Int := (digitsVal ms.data : Int)
    let d : Int := (digitsVal ds.data : Int)
    if 1 ≤ y && 1 ≤ m && m ≤ 12 && 1 ≤ d && d ≤ daysInMonth y m then some (y, m, d)
    else none
  else none

/-- Split a candidate date string by a single-character separator occurring
exactly twice, as the anchored strptime pattern demands. -/
def splitDate (sep : Char) (s : String) : Option (Int × Int × Int) :=
  match strSplitOnChar sep s with
  | [ys, ms, ds] => strptimeParts ys ms ds
  | _ => none

/-- The third accepted pattern with the CJK year/month/day literals, with
nothing after the final literal. -/
def splitCjkDate (s : String) : Option (Int × Int × Int) :=
  match strSplitOnChar '年' s with
  | [ys, rest] =>
    match strSplitOnChar '月' rest with
    | [ms, rest2] =>
      match strSplitOnChar '日' rest2 with
      | [ds, tail] => if tail.data.isEmpty then strptimeParts ys ms ds else none
      | _ => none
    | _ => none
  | _ => none

/-- The format loop of check_document_expiration_by_metadata (lines
435-443): try the three accepted date formats in order, keeping the first
success. -/
def tryParseDateFormats (s : String) : Option (Int × Int × Int) :=
  match splitDate '-' s with
  | some d => some d
  | none =>
    match splitDate '/' s with
    | some d => some d
    | none => splitCjkDate s

/-- VersionManager.check_document_expiration_by_metadata (version_manager.py
lines 404-466).  Returns the pair (is_expired, expiration_date value).
A missing or empty stored analysis, an unparseable analysis JSON, a
non-object analysis or ai_metadata value (whose attribute access raises into
the outer handler), or a missing/falsy expiration_date all yield
(False, None).  A recognized permanence sentinel yields (False, value).  An
unparseable or non-string date value yields (False, value) via the inner
exception handler.  Otherwise the parsed date is compared against now. -/
def check_document_expiration_by_metadata (aiAnalysisJson : Option String) (now : PyDateTime) :
    Bool × Option JVal :=
  match aiAnalysisJson with
  | none => (false, none)
  | some s =>
    if s.data.isEmpty then (false, none)
    else
      match jsonLoads s with
      | some (.jobj fields) =>
        match (lookupJ fields "ai_metadata").getD (.jobj []) with
        | .jobj mfs =>
          match lookupJ mfs "expiration_date" with
          | none => (false, none)
          | some ev =>
            if !truthy ev then (false, none)
            else
              match ev with
              | .jstr ds =>
                if sentinelValues.contains ds then (false, some ev)
                else
                  match tryParseDateFormats ds with
                  | none => (false, some ev)
                  | some (y, m, d) => (dateTimeLt y m d now, some ev)
              | _ => (false, some ev)
        | _ => (false, none)
      | _ => (false, none)

/-- VersionManager.check_document_expiration_by_ai (version_manager.py lines
468-543): an uninitialized client or an exception yields False; otherwise
the truthiness of the reply's is_expired field, modelled as the environment
boolean. -/
def check_document_expiration_by_ai (clientInit : Bool) (aiExpired : Option Bool) : Bool :=
  if !clientInit then false
  else aiExpired.getD false

/-- Environment of one document iteration of
process_document_expiration_check: the stored ai_analysis_result column,
the preview download outcome, the AI client state and judgment, and whether
a knowledge-base delete of this document would succeed. -/
structure ExpiryDocEnv where
  aiAnalysisJson : Option String
  previewResult : Option String
  clientInit : Bool
  aiExpired : Option Bool
  deleteOk : Bool

/-- Observable effects of one document iteration of the expiration sweep. -/
structure ExpiryStepResult where
  aiCalled : Bool
  deleted : Bool
  expiredByMetadata : Bool
  expiredByAi : Bool
  errorsDelta : Nat
  deriving DecidableEq, Repr

/-- One loop iteration of
VersionManager.process_document_expiration_check (version_manager.py lines
575-626): the metadata check runs first; an expired-by-metadata document is
deleted and the AI is never consulted; the secondary AI judgment runs only
when the stored analysis is falsy or the returned expiration value is falsy;
a failed preview download counts an error; an AI-expired verdict deletes. -/
def expirySweepStep (env : ExpiryDocEnv) (now : PyDateTime) : ExpiryStepResult :=
  if (check_document_expiration_by_metadata env.aiAnalysisJson now).1 then
    { aiCalled := false, deleted := env.deleteOk, expiredByMetadata := true,
      expiredByAi := false, errorsDelta := 0 }
  else
    if (match env.aiAnalysisJson with
        | none => true
        | some s => s.data.isEmpty) ||
      (match (check_document_expiration_by_metadata env.aiAnalysisJson now).2 with
        | none => true
        | some v => !truthy v) then
      match env.previewResult with
      | none =>
        { aiCalled := false, deleted := false, expiredByMetadata := false,
          expiredByAi := false, errorsDelta := 1 }
      | some _ =>
        if check_document_expiration_by_ai env.clientInit env.aiExpired then
          { aiCalled := true, deleted := env.deleteOk, expiredByMetadata := false,
            expiredByAi := true, errorsDelta := 0 }
        else
          { aiCalled := true, deleted := false, expiredByMetadata := false,
            expiredByAi := false, errorsDelta := 0 }
    else
      { aiCalled := false, deleted := false, expiredByMetadata := false,
        expiredByAi := false, errorsDelta := 0 }

/-! ## Status-sequence shapes for the monotonicity claim -/

/-- The non-terminal stage chain of the orchestrator. -/
def statusChain : List ProcessingStatus :=
  [.PENDING, .DOWNLOADING, .DECRYPTING, .PARSING, .ANALYZING]

/-- Terminal statuses of one processing attempt. -/
def isTerminalStatus : ProcessingStatus → Bool
  | .AWAITING_APPROVAL => true
  | .COMPLETED => true
  | .FAILED => true
  | .SKIPPED => true
  | _ => false

/-- First list is a prefix run of the second. -/
def prefixRunB {α : Type} [DecidableEq α] : List α → List α → Bool
  | [], _ => true
  | _ :: _, [] => false
  | a :: l, b :: l2 => a = b && prefixRunB l l2

/-- Formalization of the claimed status-write shape: the written statuses,
prepended with the initial PENDING the attempt starts from, form a prefix
of the stage chain followed by exactly one terminal status. -/
def specStatusShape (ws : List ProcessingStatus) : Bool :=
  let l := ProcessingStatus.PENDING :: ws
  match l.getLast? with
  | none => false
  | some t => isTerminalStatus t && prefixRunB l.dropLast statusChain

/-- The exception shape actually produced when a download/decrypt/parse
stage raises: a chain prefix followed by FAILED written twice (once by the
stage handler, once by the outer handler). -/
def doubleFailShape (ws : List ProcessingStatus) : Bool :=
  let l := ProcessingStatus.PENDING :: ws
  match l.reverse with
  | f1 :: f2 :: rest =>
    f1 = ProcessingStatus.FAILED && f2 = ProcessingStatus.FAILED
      && prefixRunB rest.reverse statusChain
  | _ => false

/-- The amended status-write shape: the claimed shape, or no write at all
(guard-rejected run), or a chain prefix with FAILED written twice. -/
def amendedStatusShape (ws : List ProcessingStatus) : Bool :=
  specStatusShape ws || ws.isEmpty || doubleFailShape ws

/-- Stage order of the pipeline; all terminal statuses share the top
rank. -/
def statusRank : ProcessingStatus → Nat
  | .PENDING => 0
  | .DOWNLOADING => 1
  | .DECRYPTING => 2
  | .PARSING => 3
  | .ANALYZING => 4
  | .AWAITING_APPROVAL => 5
  | .COMPLETED => 5
  | .FAILED => 5
  | .SKIPPED => 5

/-- Adjacent-pair monotonicity of a status sequence: the status never moves
backward. -/
def monoStatuses : List ProcessingStatus → Bool
  | [] => true
  | [_] => true
  | a :: b :: rest => decide (statusRank a ≤ statusRank b) && monoStatuses (b :: rest)

/-! ## Shared concrete inputs and helper lemmas -/

/-- A valid business category value for concrete runs. -/
def fiStd : FileInfoDict := { business_category := some "PUBLIC_STANDARD" }

/-- Concrete parse metadata for concrete runs. -/
def mdStd : ParseMetadata := { file_type := "docx" }

/-- An active knowledge base row for concrete runs. -/
def kbActive : KB := { name := "kb", status := "active" }

theorem PyNum.le_refl (a : PyNum) : a ≤ a := Int.le_refl _

theorem PyNum.le_of_lt {a b : PyNum} (h : a < b) : a ≤ b := Int.le_of_lt h

theorem PyNum.int_le_int {a b : Int} : (PyNum.int a : PyNum) ≤ .int b ↔ a ≤ b := by
  change a * 1 ≤ b * 1 ↔ a ≤ b
  omega

theorem clampScore_bounds (x : PyNum) :
    PyNum.int 0 ≤ clampScore x ∧ clampScore x ≤ PyNum.int 100 := by
  have hy1 : pyMin (.int 100) x ≤ PyNum.int 100 := by
    unfold pyMin
    split
    · exact PyNum.le_of_lt (by assumption)
    · exact PyNum.le_refl _
  unfold clampScore pyMax
  split
  · exact ⟨PyNum.le_of_lt (by assumption), hy1⟩
  · exact ⟨PyNum.le_refl _, by decide⟩

theorem blacklistFold_bounds (fl : String) (l : List String) (acc : Bool × Int × List String)
    (h : 10 ≤ acc.2.1 ∧ acc.2.1 ≤ 60) :
    10 ≤ (l.foldl (blacklistStep fl) acc).2.1 ∧ (l.foldl (blacklistStep fl) acc).2.1 ≤ 60 := by
  induction l generalizing acc with
  | nil => exact h
  | cons kw rest ih =>
    refine ih _ ?_
    unfold blacklistStep
    split
    · exact ⟨le_max_right _ _, max_le (by omega) (by norm_num)⟩
    · exact h

theorem lengthStep_bounds (contentLength : Int) (s : Bool × Int × List String)
    (h : 10 ≤ s.2.1 ∧ s.2.1 ≤ 60) :
    10 ≤ (lengthStep contentLength s).2.1 ∧ (lengthStep contentLength s).2.1 ≤ 60 := by
  unfold lengthStep
  split
  · exact ⟨le_max_right _ _, max_le (show s.2.1 - 30 ≤ 60 by omega) (by norm_num)⟩
  · split
    · exact ⟨le_trans (by norm_num) (le_max_right (s.2.1 - 10) 30),
        max_le (show s.2.1 - 10 ≤ 60 by omega) (by norm_num)⟩
    · exact h

theorem ruleState2_conf_bounds (content filename : String) :
    10 ≤ (ruleState2 content filename).2.1 ∧ (ruleState2 content filename).2.1 ≤ 60 := by
  have h1 : 10 ≤ (ruleState1 filename).2.1 ∧ (ruleState1 filename).2.1 ≤ 60 := by
    unfold ruleState1
    exact blacklistFold_bounds (strLower filename) blacklistKeywords (true, 60, []) (by norm_num)
  unfold ruleState2
  exact lengthStep_bounds ((strTrim content).length : Int) (ruleState1 filename) h1

theorem ruleConfidence_bounds (content filename : String) :
    10 ≤ ruleConfidence content filename ∧ ruleConfidence content filename ≤ 60 := by
  have h2 := ruleState2_conf_bounds content filename
  unfold ruleConfidence
  split
  · refine ⟨le_max_right _ _, max_le ?_ (by norm_num)⟩
    omega
  · exact h2

theorem rule_based_confidence_bounds (content filename : String) (fi : FileInfoDict)
    (md : ParseMetadata) :
    PyNum.int 0 ≤ (rule_based_analysis content filename fi md).confidence_score ∧
      (rule_based_analysis content filename fi md).confidence_score ≤ PyNum.int 100 := by
  show PyNum.int 0 ≤ PyNum.int (ruleConfidence content filename) ∧
    PyNum.int (ruleConfidence content filename) ≤ PyNum.int 100
  have h := ruleConfidence_bounds content filename
  exact ⟨PyNum.int_le_int.mpr (by omega), PyNum.int_le_int.mpr (by omega)⟩
theorem rule_based_method (content filename : String) (fi : FileInfoDict) (md : ParseMetadata) :
    (rule_based_analysis content filename fi md).analysis_method = "rule_based" := rfl

theorem rule_based_suitable_bool (content filename : String) (fi : FileInfoDict)
    (md : ParseMetadata) :
    ∃ b, (rule_based_analysis content filename fi md).suitable_for_kb = JVal.jbool b :=
  ⟨_, rfl⟩

theorem rule_based_pc (content filename : String) (fi : FileInfoDict) (md : ParseMetadata) :
    (rule_based_analysis content filename fi md).processor_config = none := rfl

theorem dictGet_pcDict_auto (minC autoT : Int) :
    dictGet (pcDict minC autoT) "auto_approve_threshold" 80 = autoT := by
  unfold pcDict dictGet
  rw [if_neg (by decide)]
  unfold dictGet
  rw [if_pos rfl]

theorem dictGet_pcDict_minScore (minC autoT : Int) :
    dictGet (pcDict minC autoT) "min_confidence_score" 40 = 40 := by
  unfold pcDict dictGet
  rw [if_neg (by decide)]
  unfold dictGet
  rw [if_neg (by decide)]
  rfl

theorem buildAiResult_spec (fs : List (String × JVal)) (minC autoT : Int) (r : AnalysisResult)
    (h : buildAiResult fs minC autoT = some r) :
    (PyNum.int 0 ≤ r.confidence_score ∧ r.confidence_score ≤ PyNum.int 100) ∧
      r.analysis_method = "ai" ∧
      r.processor_config = some (pcDict minC autoT) ∧
      ((∃ b, r.suitable_for_kb = JVal.jbool b) ∨
        lookupJ fs "suitable_for_kb" = some r.suitable_for_kb) := by
  unfold buildAiResult at h
  split at h
  case h_2 => exact absurd h (by simp)
  case h_1 c0 q0 hc hq =>
    split at h
    · split at h
      · rw [Option.some.injEq] at h
        subst h
        exact ⟨clampScore_bounds c0, rfl, rfl, Or.inl ⟨false, rfl⟩⟩
      · exact absurd h (by simp)
    · rw [Option.some.injEq] at h
      subst h
      refine ⟨clampScore_bounds c0, rfl, rfl, ?_⟩
      rcases hl : lookupJ fs "suitable_for_kb" with _ | v
      · exact Or.inl ⟨false, rfl⟩
      · exact Or.inr rfl

theorem analyze_cases (content filename : String) (fi : FileInfoDict) (md : ParseMetadata)
    (env : AnalyzerEnv) :
    (analyze_document_content content filename fi md env).1
        = rule_based_analysis content filename fi md ∨
      ∃ fs r, jsonLoads (pyReply env.replyText) = some (JVal.jobj fs) ∧
        buildAiResult fs (mappingMinConfidence env) (mappingAutoApprove env) = some r ∧
        (analyze_document_content content filename fi md env).1 = r := by
  rcases hbc : fi.business_category with _ | c
  · simp only [analyze_document_content, hbc]
    exact Or.inl trivial
  · simp only [analyze_document_content, hbc]
    split_ifs with h1 h2 h3 h4
    · exact Or.inl rfl
    · exact Or.inl rfl
    · exact Or.inl rfl
    · exact Or.inl rfl
    · rcases hj : jsonLoads (pyReply env.replyText) with _ | v
      · exact Or.inl rfl
      · rcases v with _ | b | n | ⟨m, sc⟩ | s | xs | fs
        · exact Or.inl rfl
        · exact Or.inl rfl
        · exact Or.inl rfl
        · exact Or.inl rfl
        · exact Or.inl rfl
        · exact Or.inl rfl
        · dsimp only
          rcases hb : buildAiResult fs (mappingMinConfidence env) (mappingAutoApprove env)
            with _ | r
          · exact Or.inl rfl
          · exact Or.inr ⟨fs, r, rfl, hb, rfl⟩

/-- Wrapping of a raw AI reply in markdown code fences, as described by the
specification's round-trip property. -/
def wrapFences (r : String) : String :=
  ⟨"```json\n".data ++ r.data ++ "\n```".data⟩

theorem wrapFences_head (r : String) : ∃ tail, (wrapFences r).data = '`' :: tail :=
  ⟨_, rfl⟩

theorem parseVal_backtick (fuel : Nat) (rest : List Char) :
    parseVal (fuel + 1) ('`' :: rest) = none := by
  have hws : skipWs ('`' :: rest) = '`' :: rest := by
    unfold skipWs
    rw [if_neg (by decide)]
  unfold parseVal
  rw [hws]
  simp only [reduceIte, Char.isDigit]
  rfl

theorem jsonLoads_wrapFences (r : String) : jsonLoads (wrapFences r) = none := by
  obtain ⟨tail, ht⟩ := wrapFences_head r
  unfold jsonLoads
  rw [ht, List.length_cons, parseVal_backtick]

theorem jsonLoads_empty_data (s : String) (h : s.data = []) : jsonLoads s = none := by
  unfold jsonLoads
  rw [h]
  rfl

/-! ## Claim theorems -/

/-- C2: for every document record whose processing_status is not PENDING, or
that does not exist, process_document returns a failure dict and performs no
side effects: the trace is empty (no status writes, no log rows, no
error_count change, no stage entered, no publish) and the return value is
the failure indicator. -/
theorem C2_pending_guard_no_op (env : ProcEnv)
    (h : env.docStatus ≠ some ProcessingStatus.PENDING) :
    process_document env = (emptyTrace, ProcReturn.err) := by
  unfold process_document
  rw [if_neg h]

/-- A record already COMPLETED, with every stage oracle willing to succeed. -/
def envC2 : ProcEnv :=
  { docStatus := some .COMPLETED, downloadOk := true, decryptOk := true, parseRaises := false,
    parseOk := true, analysis := none, publishRaises := false, publishOk := true, retries := 0 }

/-- Witness for C2 at the concrete COMPLETED record. -/
theorem C2_pending_guard_no_op_witness :
    envC2.docStatus ≠ some ProcessingStatus.PENDING ∧
      process_document envC2 = (emptyTrace, ProcReturn.err) :=
  ⟨by decide, C2_pending_guard_no_op envC2 (by decide)⟩

/-- C9: in a deduplication run, a candidate group in which fewer than two
document previews were successfully downloaded and extracted never invokes
the AI version comparison and deletes nothing. -/
theorem C9_dedup_two_previews (env : DedupGroupEnv)
    (h : (env.similarDocs.filterMap (fun p => p.2.map (fun preview => (p.1, preview)))).length
        < 2) :
    (dedupGroupStep env).aiCompareCalled = false ∧ (dedupGroupStep env).deletedIds = [] := by
  unfold dedupGroupStep
  by_cases h1 : (!check_revision_keywords env.filename) = true
  · rw [if_pos h1]
    exact ⟨rfl, rfl⟩
  · rw [if_neg h1]
    rcases he : extract_title_from_brackets env.filename with _ | t
    · exact ⟨rfl, rfl⟩
    · by_cases h2 : env.similarDocs.length ≤ 1
      · rw [if_pos h2]
        exact ⟨rfl, rfl⟩
      · rw [if_neg h2, if_pos h]
        exact ⟨rfl, rfl⟩

/-- A concrete candidate group with three similar documents of which only
one preview download succeeds. -/
def dedupEnvW : DedupGroupEnv :=
  { filename := "关于《信贷管理办法》的修订通知.docx"
    similarDocs := [("a", some "p1"), ("b", none), ("c", none)]
    clientInit := true
    aiOutcome := some { latest_document_id := some "a", old_document_ids := ["b"] }
    deleteOk := fun _ => true }

/-- Witness for C9 at the concrete one-preview group. -/
theorem C9_dedup_two_previews_witness :
    (dedupEnvW.similarDocs.filterMap (fun p => p.2.map (fun preview => (p.1, preview)))).length
        < 2 ∧
      (dedupGroupStep dedupEnvW).aiCompareCalled = false ∧
      (dedupGroupStep dedupEnvW).deletedIds = [] :=
  ⟨by decide, C9_dedup_two_previews dedupEnvW (by decide)⟩

/-- C8: a stored analysis whose ai_metadata.expiration_date equals one of
the permanence sentinel values is classified not-expired by the metadata
check regardless of the current date, and the expiration sweep neither
consults the AI nor deletes the document. -/
theorem C8_permanence_sentinel (s : String) (fields mfs : List (String × JVal)) (sv : String)
    (env : ExpiryDocEnv) (now : PyDateTime)
    (hjson : env.aiAnalysisJson = some s)
    (hparse : jsonLoads s = some (JVal.jobj fields))
    (hmd : lookupJ fields "ai_metadata" = some (JVal.jobj mfs))
    (hexp : lookupJ mfs "expiration_date" = some (JVal.jstr sv))
    (hmem : sv ∈ sentinelValues) :
    check_document_expiration_by_metadata env.aiAnalysisJson now
        = (false, some (JVal.jstr sv)) ∧
      (expirySweepStep env now).aiCalled = false ∧
      (expirySweepStep env now).deleted = false := by
  have hs : s.data.isEmpty = false := by
    cases hE : s.data.isEmpty
    · rfl
    · exfalso
      have hnil : s.data = [] := by
        cases hd : s.data
        · rfl
        · rw [hd] at hE
          exact Bool.noConfusion hE
      rw [jsonLoads_empty_data s hnil] at hparse
      exact Option.noConfusion hparse
  have hsv : sv.data.isEmpty = false := by
    fin_cases hmem <;> decide
  have hsent : sentinelValues.contains sv = true := List.elem_iff.mpr hmem
  have htr : truthy (JVal.jstr sv) = true := by
    simp [truthy, hsv]
  have hcheck : check_document_expiration_by_metadata env.aiAnalysisJson now
      = (false, some (JVal.jstr sv)) := by
    rw [hjson]
    unfold check_document_expiration_by_metadata
    simp only [hs, hparse, hmd, hexp, htr, hsent, Bool.false_eq_true, if_false,
      Option.getD_some, Bool.not_true, if_true]
  refine ⟨hcheck, ?_, ?_⟩ <;>
  · unfold expirySweepStep
    rw [hcheck, hjson]
    simp [hs, htr]

/-- The stored analysis JSON of the C8 scenario. -/
def jsonC8 : String := "\x7b\"ai_metadata\": \x7b\"expiration_date\": \"永久\"\x7d\x7d"

/-- A document carrying the permanent-sentinel analysis, with every oracle
willing to delete or judge. -/
def expiryEnvC8 : ExpiryDocEnv :=
  { aiAnalysisJson := some jsonC8, previewResult := some "preview", clientInit := true,
    aiExpired := some true, deleteOk := true }

/-- Witness for C8 at the concrete sentinel document and a far-future
current date. -/
theorem C8_permanence_sentinel_witness :
    check_document_expiration_by_metadata expiryEnvC8.aiAnalysisJson ⟨2099, 12, 31, 100⟩
        = (false, some (JVal.jstr "永久")) ∧
      (expirySweepStep expiryEnvC8 ⟨2099, 12, 31, 100⟩).aiCalled = false ∧
      (expirySweepStep expiryEnvC8 ⟨2099, 12, 31, 100⟩).deleted = false :=
  C8_permanence_sentinel jsonC8 [("ai_metadata", JVal.jobj [("expiration_date", JVal.jstr "永久")])]
    [("expiration_date", JVal.jstr "永久")] "永久" expiryEnvC8 ⟨2099, 12, 31, 100⟩
    rfl rfl rfl rfl (by decide)

/-- C10: a stored ai_metadata.expiration_date that is a non-empty string,
not a permanence sentinel, and unparseable by all three accepted date
formats, is treated as not expired, and — because a non-null expiration
value was returned — the sweep also skips the secondary AI judgment, so the
document is never deleted. -/
theorem C10_unparseable_date_skips_ai (s : String) (fields mfs : List (String × JVal))
    (ds : String) (env : ExpiryDocEnv) (now : PyDateTime)
    (hjson : env.aiAnalysisJson = some s)
    (hparse : jsonLoads s = some (JVal.jobj fields))
    (hmd : lookupJ fields "ai_metadata" = some (JVal.jobj mfs))
    (hexp : lookupJ mfs "expiration_date" = some (JVal.jstr ds))
    (hne : ds.data.isEmpty = false)
    (hnot : ds ∉ sentinelValues)
    (hdate : tryParseDateFormats ds = none) :
    check_document_expiration_by_metadata env.aiAnalysisJson now
        = (false, some (JVal.jstr ds)) ∧
      (expirySweepStep env now).aiCalled = false ∧
      (expirySweepStep env now).deleted = false := by
  have hs : s.data.isEmpty = false := by
    cases hE : s.data.isEmpty
    · rfl
    · exfalso
      have hnil : s.data = [] := by
        cases hd : s.data
        · rfl
        · rw [hd] at hE
          exact Bool.noConfusion hE
      rw [jsonLoads_empty_data s hnil] at hparse
      exact Option.noConfusion hparse
  have hsent : sentinelValues.contains ds = false := by
    cases hE : sentinelValues.contains ds
    · rfl
    · exact absurd (List.elem_iff.mp hE) hnot
  have htr : truthy (JVal.jstr ds) = true := by
    simp [truthy, hne]
  have hcheck : check_document_expiration_by_metadata env.aiAnalysisJson now
      = (false, some (JVal.jstr ds)) := by
    rw [hjson]
    unfold check_document_expiration_by_metadata
    simp only [hs, hparse, hmd, hexp, htr, hsent, hdate, Bool.false_eq_true, if_false,
      Option.getD_some, Bool.not_true, if_true]
  refine ⟨hcheck, ?_, ?_⟩ <;>
  · unfold expirySweepStep
    rw [hcheck, hjson]
    simp [hs, htr]

/-- The stored analysis JSON of the C10 scenario: an expiration value that
is neither a sentinel nor a date. -/
def jsonC10 : String := "\x7b\"ai_metadata\": \x7b\"expiration_date\": \"无限期\"\x7d\x7d"

/-- A document carrying the unparseable expiration value, with every oracle
willing to delete or judge. -/
def expiryEnvC10 : ExpiryDocEnv :=
  { aiAnalysisJson := some jsonC10, previewResult := some "preview", clientInit := true,
    aiExpired := some true, deleteOk := true }

/-- Witness for C10 at the concrete unparseable-date document. -/
theorem C10_unparseable_date_skips_ai_witness :
    check_document_expiration_by_metadata expiryEnvC10.aiAnalysisJson ⟨2099, 12, 31, 100⟩
        = (false, some (JVal.jstr "无限期")) ∧
      (expirySweepStep expiryEnvC10 ⟨2099, 12, 31, 100⟩).aiCalled = false ∧
      (expirySweepStep expiryEnvC10 ⟨2099, 12, 31, 100⟩).deleted = false :=
  C10_unparseable_date_skips_ai jsonC10
    [("ai_metadata", JVal.jobj [("expiration_date", JVal.jstr "无限期")])]
    [("expiration_date", JVal.jstr "无限期")] "无限期" expiryEnvC10 ⟨2099, 12, 31, 100⟩
    rfl rfl rfl rfl (by decide) (by decide) (by decide)

/-- C4 amended: analyze_document_content always returns (never raises, by
the try/except structure embedded in its definition) with a confidence_score
whose value is clamped into [0,100]; the score is however not always an
integer — on the successful AI path a float reply value passes through the
max/min clamp unchanged — and suitable_for_kb is a genuine boolean only on
the rule-based and min-confidence-forced paths: on the successful AI path
it is the reply object's suitable_for_kb value passed through verbatim, so
it is a boolean only when the reply supplies one (or omits the field). -/
theorem C4_amended_analyzer_total (content filename : String) (fi : FileInfoDict)
    (md : ParseMetadata) (env : AnalyzerEnv) :
    PyNum.int 0 ≤ (analyze_document_content content filename fi md env).1.confidence_score ∧
      (analyze_document_content content filename fi md env).1.confidence_score ≤ PyNum.int 100 ∧
      ((∃ b, (analyze_document_content content filename fi md env).1.suitable_for_kb
          = JVal.jbool b) ∨
        ∃ fs, jsonLoads (pyReply env.replyText) = some (JVal.jobj fs) ∧
          lookupJ fs "suitable_for_kb"
            = some (analyze_document_content content filename fi md env).1.suitable_for_kb) := by
  rcases analyze_cases content filename fi md env with hrb | ⟨fs, r, hj, hb, heq⟩
  · rw [hrb]
    have hbd := rule_based_confidence_bounds content filename fi md
    exact ⟨hbd.1, hbd.2, Or.inl (rule_based_suitable_bool content filename fi md)⟩
  · rw [heq]
    obtain ⟨⟨hb1, hb2⟩, _, _, hsuit⟩ := buildAiResult_spec fs _ _ r hb
    refine ⟨hb1, hb2, ?_⟩
    rcases hsuit with hbool | hlook
    · exact Or.inl hbool
    · exact Or.inr ⟨fs, hj, hlook⟩

/-- An AI reply whose suitable_for_kb field is the string "yes" rather than
a boolean, with a confidence above the no-mapping min threshold 70. -/
def aenvC4 : AnalyzerEnv :=
  { clientInit := true, mapping := none, kbs := [kbActive], aiRaises := false,
    replyText := some "\x7b\"suitable_for_kb\": \"yes\", \"confidence_score\": 80\x7d" }

/-- An AI reply whose confidence_score is the JSON float 85.5 (above the
no-mapping min threshold 70, so nothing is forced). -/
def aenvC4f : AnalyzerEnv :=
  { clientInit := true, mapping := none, kbs := [kbActive], aiRaises := false,
    replyText := some "\x7b\"suitable_for_kb\": true, \"confidence_score\": 85.5\x7d" }

/-- C4 counterexample, refuting both halves of the claim's result shape:
the analyzer passes a non-boolean suitable_for_kb value ("yes") through
verbatim, and a float confidence 85.5 flows through json.loads and the
max/min clamp onto the returned result, whose confidence_score is therefore
a Python float of non-integer value, not an integer. -/
theorem C4_counterexample :
    ((analyze_document_content "c" "f.docx" fiStd mdStd aenvC4).1.suitable_for_kb
        = JVal.jstr "yes" ∧
      ∀ b : Bool, JVal.jstr "yes" ≠ JVal.jbool b) ∧
      ((analyze_document_content "c" "f.docx" fiStd mdStd aenvC4f).1.confidence_score
          = PyNum.dec 855 1 ∧
        PyNum.intValued (PyNum.dec 855 1) = false ∧
        ∀ n : Int, PyNum.dec 855 1 ≠ PyNum.int n) :=
  ⟨⟨rfl, fun _ h => JVal.noConfusion h⟩,
    ⟨rfl, by decide, fun _ h => PyNum.noConfusion h⟩⟩

/-- C5 amended: the raw AI reply is parsed as-is — no markdown code-fence
stripping happens anywhere in analyze_document_content — so a reply wrapped
in code fences always fails the JSON parse and the analyzer degrades to the
rule-based result with no target knowledge base, rather than parsing
identically to the unwrapped reply. -/
theorem C5_amended_fences_degrade (content filename : String) (fi : FileInfoDict)
    (md : ParseMetadata) (env : AnalyzerEnv) (r : String) (c : String)
    (hbc : fi.business_category = some c)
    (hcne : c.data.isEmpty = false)
    (hcv : businessCategoryValues.contains c = true)
    (hcl : env.clientInit = true)
    (har : env.aiRaises = false)
    (hrt : env.replyText = some (wrapFences r)) :
    jsonLoads (wrapFences r) = none ∧
      analyze_document_content content filename fi md env
        = (rule_based_analysis content filename fi md, none) := by
  have hw := jsonLoads_wrapFences r
  have hne : (wrapFences r).data.isEmpty = false := by
    obtain ⟨t, ht⟩ := wrapFences_head r
    rw [ht]
    rfl
  have hpr : pyReply (some (wrapFences r)) = wrapFences r := by
    unfold pyReply pyOrDefault
    simp [hne]
  refine ⟨hw, ?_⟩
  simp only [analyze_document_content, hbc, hcne, hcv, hcl, har, hrt, hpr, hw,
    Bool.not_true, Bool.false_eq_true, if_false]

/-- An analyzer environment whose AI reply is the clean empty JSON
object. -/
def aenvU : AnalyzerEnv :=
  { clientInit := true, mapping := none, kbs := [kbActive], aiRaises := false,
    replyText := some "\x7b\x7d" }

/-- The same environment with the reply wrapped in markdown code fences. -/
def aenvW : AnalyzerEnv :=
  { clientInit := true, mapping := none, kbs := [kbActive], aiRaises := false,
    replyText := some (wrapFences "\x7b\x7d") }

/-- C5 counterexample: the unwrapped reply takes the AI path while the
fence-wrapped reply degrades to the rule-based path, so the two runs do not
produce identical analysis results. -/
theorem C5_counterexample :
    (analyze_document_content "c" "f.docx" fiStd mdStd aenvU).1.analysis_method = "ai" ∧
      (analyze_document_content "c" "f.docx" fiStd mdStd aenvW).1.analysis_method
        = "rule_based" ∧
      ("ai" : String) ≠ "rule_based" :=
  ⟨rfl, rfl, by decide⟩

/-- Witness for the amended C5 at the concrete wrapped empty-object
reply. -/
theorem C5_amended_fences_degrade_witness :
    jsonLoads (wrapFences "\x7b\x7d") = none ∧
      analyze_document_content "c" "f.docx" fiStd mdStd aenvW
        = (rule_based_analysis "c" "f.docx" fiStd mdStd, none) :=
  C5_amended_fences_degrade "c" "f.docx" fiStd mdStd aenvW "\x7b\x7d" "PUBLIC_STANDARD"
    rfl rfl (by decide) rfl rfl rfl

/-- An active category mapping with auto-approve 80 and min-confidence 40,
as in the specification's P4 scenarios. -/
def map8040 : Mapping :=
  { min_confidence_score := 40, auto_approve_threshold := 80, knowledge_base := kbActive }

/-- P4 environment: mapping (40, 80), suitable reply at confidence 85. -/
def aenvP4a : AnalyzerEnv :=
  { clientInit := true, mapping := some map8040, kbs := [kbActive], aiRaises := false,
    replyText := some "\x7b\"suitable_for_kb\": true, \"confidence_score\": 85\x7d" }

/-- P4 environment: mapping (40, 80), suitable reply at confidence 60. -/
def aenvP4b : AnalyzerEnv :=
  { clientInit := true, mapping := some map8040, kbs := [kbActive], aiRaises := false,
    replyText := some "\x7b\"suitable_for_kb\": true, \"confidence_score\": 60\x7d" }

/-- P4 environment: mapping (40, 80), suitable reply at confidence 20. -/
def aenvP4c : AnalyzerEnv :=
  { clientInit := true, mapping := some map8040, kbs := [kbActive], aiRaises := false,
    replyText := some "\x7b\"suitable_for_kb\": true, \"confidence_score\": 20\x7d" }

/-- No active mapping, suitable reply at confidence 85. -/
def aenvNoMap : AnalyzerEnv :=
  { clientInit := true, mapping := none, kbs := [kbActive], aiRaises := false,
    replyText := some "\x7b\"suitable_for_kb\": true, \"confidence_score\": 85\x7d" }

/-- C1 counterexample: with no active mapping, suitable_for_kb true,
confidence 85 and a publish oracle that would succeed, the claim's default
auto-approve threshold of 80 predicts COMPLETED, but the routing reads
auto_approve_threshold 90 (the DocumentProcessor no-mapping default stored
in processor_config) and lands in AWAITING_APPROVAL instead. -/
theorem C1_counterexample :
    (pipelineRun (some .PENDING) true true false true false true 0 "c" "f.docx" fiStd mdStd
        aenvNoMap).1.statuses
      = [.DOWNLOADING, .DECRYPTING, .PARSING, .ANALYZING, .AWAITING_APPROVAL] ∧
    (pipelineRun (some .PENDING) true true false true false true 0 "c" "f.docx" fiStd mdStd
        aenvNoMap).1.statuses
      ≠ [.DOWNLOADING, .DECRYPTING, .PARSING, .ANALYZING, .COMPLETED] :=
  ⟨rfl, by decide⟩

/-- C1 amended: the routing decision reads its thresholds from the analysis
result's processor_config dict.  On a successful AI analysis the
auto-approve threshold used is the mapping's auto_approve_threshold (or the
DocumentProcessor default 90 when no mapping exists, i.e. mappingAutoApprove),
while the min-confidence used is always the default 40 because the dict
stores the mapping value under the key "min_confidence" and the router looks
up "min_confidence_score".  The defaults (80, 40) apply exactly when the
analysis result carries no processor_config (rule-based or failed analysis).
The P4 scenarios hold with a mapping whose auto-approve is 80 and
min-confidence 40: confidence 85 publishes to COMPLETED, 60 awaits
approval, 20 is skipped. -/
theorem C1_amended_threshold_resolution :
    (∀ (content filename : String) (fi : FileInfoDict) (md : ParseMetadata) (env : AnalyzerEnv)
        (r : AnalysisResult) (kb : Option KB),
        analyze_document_content content filename fi md env = (r, kb) →
        r.analysis_method = "ai" →
        dictGet (r.processor_config.getD []) "auto_approve_threshold" 80
            = mappingAutoApprove env ∧
          dictGet (r.processor_config.getD []) "min_confidence_score" 40 = 40) ∧
      (∀ r : AnalysisResult, r.processor_config = none →
        dictGet (r.processor_config.getD []) "auto_approve_threshold" 80 = 80 ∧
          dictGet (r.processor_config.getD []) "min_confidence_score" 40 = 40) ∧
      (pipelineRun (some .PENDING) true true false true false true 0 "c" "f.docx" fiStd mdStd
          aenvP4a).1.statuses
        = [.DOWNLOADING, .DECRYPTING, .PARSING, .ANALYZING, .COMPLETED] ∧
      (pipelineRun (some .PENDING) true true false true false true 0 "c" "f.docx" fiStd mdStd
          aenvP4b).1.statuses
        = [.DOWNLOADING, .DECRYPTING, .PARSING, .ANALYZING, .AWAITING_APPROVAL] ∧
      (pipelineRun (some .PENDING) true true false true false true 0 "c" "f.docx" fiStd mdStd
          aenvP4c).1.statuses
        = [.DOWNLOADING, .DECRYPTING, .PARSING, .ANALYZING, .SKIPPED] := by
  refine ⟨?_, ?_, rfl, rfl, rfl⟩
  · intro content filename fi md env r kb heq hm
    have h1 : (analyze_document_content content filename fi md env).1 = r := by rw [heq]
    rcases analyze_cases content filename fi md env with hrb | ⟨fs, r2, hj, hb, heq2⟩
    · rw [h1] at hrb
      rw [hrb, rule_based_method] at hm
      exact absurd hm (by decide)
    · rw [h1] at heq2
      subst heq2
      obtain ⟨_, _, hpc, _⟩ := buildAiResult_spec fs _ _ r hb
      rw [hpc]
      simp only [Option.getD_some]
      exact ⟨dictGet_pcDict_auto _ _, dictGet_pcDict_minScore _ _⟩
  · intro r h
    rw [h]
    exact ⟨rfl, rfl⟩

/-- Witness for the amended C1: the threshold-resolution conjunct applied
at the concrete no-mapping environment, where the resolved auto-approve
threshold is the no-mapping default 90. -/
theorem C1_amended_threshold_resolution_witness :
    dictGet
        (((analyze_document_content "c" "f.docx" fiStd mdStd aenvNoMap).1.processor_config).getD
          []) "auto_approve_threshold" 80
      = mappingAutoApprove aenvNoMap ∧
      dictGet
          (((analyze_document_content "c" "f.docx" fiStd mdStd
            aenvNoMap).1.processor_config).getD []) "min_confidence_score" 40
        = 40 :=
  C1_amended_threshold_resolution.1 "c" "f.docx" fiStd mdStd aenvNoMap
    (analyze_document_content "c" "f.docx" fiStd mdStd aenvNoMap).1
    (analyze_document_content "c" "f.docx" fiStd mdStd aenvNoMap).2 rfl rfl

/-- A PENDING record whose download raises with the retry budget already
exhausted: the invocation completes (returns a failure dict) after writing
FAILED twice. -/
def envC3 : ProcEnv :=
  { docStatus := some .PENDING, downloadOk := false, decryptOk := true, parseRaises := false,
    parseOk := true, analysis := none, publishRaises := false, publishOk := true, retries := 3 }

/-- C3 counterexample: this crash-free invocation writes DOWNLOADING,
FAILED, FAILED — the stage handler and the outer handler each write FAILED —
so the written sequence is not a chain prefix followed by exactly one
terminal status, refuting the claim as stated. -/
theorem C3_counterexample :
    (process_document envC3).2 = ProcReturn.err ∧
      (process_document envC3).1.statuses = [.DOWNLOADING, .FAILED, .FAILED] ∧
      specStatusShape (process_document envC3).1.statuses = false :=
  ⟨rfl, rfl, rfl⟩

/-- C3 amended: for every invocation that completes without raising, the
written status sequence (prepended with the initial PENDING) is either a
chain prefix followed by exactly one terminal status, or empty
(guard-rejected run), or a chain prefix followed by FAILED written twice
(a download/decrypt/parse stage raising with retries exhausted); and the
status never moves backward within the attempt. -/
theorem C3_amended_status_shape (env : ProcEnv)
    (h : (process_document env).2 ≠ ProcReturn.raisedRetry) :
    amendedStatusShape (process_document env).1.statuses = true ∧
      monoStatuses (ProcessingStatus.PENDING :: (process_document env).1.statuses) = true := by
  clear h
  unfold process_document
  by_cases hg : env.docStatus = some ProcessingStatus.PENDING
  · rw [if_pos hg]
    cases hdl : env.downloadOk
    · simp only [Bool.not_false, Bool.not_true, Bool.false_eq_true, eq_self_iff_true, if_true, if_false]
      exact ⟨by decide, by decide⟩
    · cases hde : env.decryptOk
      · simp only [Bool.not_false, Bool.not_true, Bool.false_eq_true, eq_self_iff_true, if_true, if_false]
        exact ⟨by decide, by decide⟩
      · cases hpr : env.parseRaises
        · cases hpo : env.parseOk
          · simp only [Bool.not_false, Bool.not_true, Bool.false_eq_true, eq_self_iff_true, if_true, if_false]
            exact ⟨by decide, by decide⟩
          · simp only [Bool.not_false, Bool.not_true, Bool.false_eq_true, eq_self_iff_true, if_true, if_false]
            rcases han : env.analysis with _ | ⟨ar, target⟩
            · rw [if_neg (by decide), if_neg (by decide)]
              exact ⟨by decide, by decide⟩
            · simp only [Option.map_some', Option.getD_some]
              split_ifs <;>
                exact ⟨by dsimp only; decide, by dsimp only; decide⟩
        · simp only [Bool.not_false, Bool.not_true, Bool.false_eq_true, eq_self_iff_true, if_true, if_false]
          exact ⟨by decide, by decide⟩
  · rw [if_neg hg]
    exact ⟨by decide, by decide⟩

/-- A fully successful run, for the witness of the amended C3. -/
def envC3ok : ProcEnv :=
  { docStatus := some .PENDING, downloadOk := true, decryptOk := true, parseRaises := false,
    parseOk := true, analysis := none, publishRaises := false, publishOk := true, retries := 0 }

/-- Witness for the amended C3 at a crash-free run (analysis raised, so the
routing skips the document). -/
theorem C3_amended_status_shape_witness :
    (process_document envC3ok).2 ≠ ProcReturn.raisedRetry ∧
      (amendedStatusShape (process_document envC3ok).1.statuses = true ∧
        monoStatuses (ProcessingStatus.PENDING :: (process_document envC3ok).1.statuses)
          = true) :=
  ⟨by decide, C3_amended_status_shape envC3ok (by decide)⟩

/-- A PENDING record whose S3 download raises on every attempt, delivered
with a fresh retry counter. -/
def envC6 : ProcEnv :=
  { docStatus := some .PENDING, downloadOk := false, decryptOk := true, parseRaises := false,
    parseOk := true, analysis := none, publishRaises := false, publishOk := true, retries := 0 }

/-- C6: evaluation of the retry loop at the failing input.  The first
attempt writes DOWNLOADING, FAILED, FAILED, appends the single failed
download log row (with a duration) and raises self.retry; the re-delivered
attempt finds the record in FAILED, fails the PENDING-only eligibility
guard and returns a failure dict with no writes at all, ending the loop.
So the full process is executed only once — the claimed three full retries
never happen — and the one FAILED log row is written during the first
attempt, before any retry, not after an exhausted retry sequence. -/
theorem C6_retry_guard_noop :
    retryRun 5 envC6
        = [({ statuses := [.DOWNLOADING, .FAILED, .FAILED],
              logs := [{ step := "download", status := "failed", hasDuration := true }],
              errorDelta := 2, stagesRun := ["download"], usedDefaultKbService := false },
            ProcReturn.raisedRetry),
           (emptyTrace, ProcReturn.err)] ∧
      ((retryRun 5 envC6).map (fun a => a.1.logs)).flatten
        = [{ step := "download", status := "failed", hasDuration := true }] :=
  ⟨rfl, rfl⟩

/-- An analyzer environment with no mapping and no knowledge base rows at
all, whose AI reply is suitable at confidence 95 (above the no-mapping
auto-approve threshold 90). -/
def aenvC7 : AnalyzerEnv :=
  { clientInit := true, mapping := none, kbs := [], aiRaises := false,
    replyText := some "\x7b\"suitable_for_kb\": true, \"confidence_score\": 95\x7d" }

/-- C7 counterexample: with no active knowledge base the resolved target is
None, yet the downstream publish step is executed anyway — through the
globally configured default dify_service — instead of being skipped as a
configuration failure. -/
theorem C7_counterexample :
    get_target_knowledge_base aenvC7 = none ∧
      (pipelineRun (some .PENDING) true true false true false true 0 "c" "f.docx" fiStd mdStd
          aenvC7).1.stagesRun
        = ["download", "decrypt", "parse", "analyze", "add_to_kb"] ∧
      (pipelineRun (some .PENDING) true true false true false true 0 "c" "f.docx" fiStd mdStd
          aenvC7).1.usedDefaultKbService = true :=
  ⟨rfl, rfl, rfl⟩

/-- C7 amended: with no active mapping the router falls back to the first
knowledge base whose status is "active"; when none of the knowledge bases
is active the resolved target is None; in that case the publish step is NOT
skipped — when the routing decision selects publication it is performed
with the globally configured default knowledge-base service. -/
theorem C7_amended_fallback_still_publishes :
    (∀ env : AnalyzerEnv, env.mapping = none →
        get_target_knowledge_base env = env.kbs.find? (fun kb => kb.status = "active")) ∧
      (∀ env : AnalyzerEnv, env.mapping = none →
        (∀ kb ∈ env.kbs, kb.status ≠ "active") →
        get_target_knowledge_base env = none) ∧
      (∀ (env : ProcEnv) (r : AnalysisResult),
        env.docStatus = some ProcessingStatus.PENDING →
        env.downloadOk = true → env.decryptOk = true → env.parseRaises = false →
        env.parseOk = true → env.analysis = some (r, none) →
        (truthy r.suitable_for_kb = true ∧
          PyNum.int (dictGet (r.processor_config.getD []) "auto_approve_threshold" 80)
            ≤ r.confidence_score) →
        (process_document env).1.stagesRun
            = ["download", "decrypt", "parse", "analyze", "add_to_kb"] ∧
          (process_document env).1.usedDefaultKbService = true) := by
  refine ⟨?_, ?_, ?_⟩
  · intro env hm
    unfold get_target_knowledge_base
    rw [hm]
  · intro env hm hnone
    unfold get_target_knowledge_base
    rw [hm]
    rw [List.find?_eq_none]
    intro kb hkb
    simp only [decide_eq_true_eq]
    exact hnone kb hkb
  · intro env r h1 h2 h3 h4 h5 h6 h7
    unfold process_document
    rw [if_pos h1]
    simp only [h2, h3, h4, h5, h6, Bool.not_true, Bool.not_false, Bool.false_eq_true,
      Bool.true_eq_false, eq_self_iff_true, if_true, if_false, Option.map_some',
      Option.getD_some]
    rw [if_pos ⟨h7.1, h7.2⟩]
    split_ifs <;> exact ⟨rfl, rfl⟩

/-- A fully successful pipeline environment whose analysis carries a
suitable high-confidence result with no resolved target. -/
def arC7 : AnalysisResult :=
  { suitable_for_kb := .jbool true, confidence_score := .int 95, reasons := .jarr [],
    quality_score := some (.int 50), analysis_method := "ai",
    processor_config := some (pcDict 70 90) }

/-- The pipeline environment for the C7 witness. -/
def envC7p : ProcEnv :=
  { docStatus := some .PENDING, downloadOk := true, decryptOk := true, parseRaises := false,
    parseOk := true, analysis := some (arC7, none), publishRaises := false, publishOk := true,
    retries := 0 }

/-- Witness for the amended C7 at concrete inputs: the router fallback on
the no-KB environment and the publish-with-default-service behaviour. -/
theorem C7_amended_fallback_still_publishes_witness :
    get_target_knowledge_base aenvC7 = aenvC7.kbs.find? (fun kb => kb.status = "active") ∧
      ((process_document envC7p).1.stagesRun
          = ["download", "decrypt", "parse", "analyze", "add_to_kb"] ∧
        (process_document envC7p).1.usedDefaultKbService = true) :=
  ⟨C7_amended_fallback_still_publishes.1 aenvC7 rfl,
    C7_amended_fallback_still_publishes.2.2 envC7p arC7 rfl rfl rfl rfl rfl rfl
      ⟨by decide, by decide⟩⟩
